import Mathlib

/-!
Shallow embedding of the rviz point-cloud display subsystem
(`src/rviz/displays/point_cloud_base.cpp`) and theorems checking the
repository specification against it.

Modelling conventions:
* `float` configuration values and channel values are modelled as rationals
  (`ℚ`); the source only compares, selects (`std::min`/`std::max`), and does
  exact-representable linear arithmetic on them in the properties checked
  here, except for the packed-RGB reinterpretation, which is modelled on the
  32-bit pattern itself.
* The renderer (`ogre_tools::PointCloud`) is modelled by its vertex queue:
  `addPoints` appends at the tail, `popPoints(n)` drops an n-point prefix,
  `clear` empties it (the FIFO queue discipline stated in the spec, §6).
* Property-panel notifications (`*_property_->changed()`) and `causeRender()`
  calls are recorded in an event trace; the state models the display after
  `createProperties()` has run, so every property pointer is non-null.
* The TF resolver is external; `transformPointCloud` either succeeds with
  some rigid per-point map or throws, in which case the cloud is left as it
  was.  It is passed to `addMessage` as an `Option (Point3 → Point3)`.
-/

namespace rviz

/-- RGB colour triple (rviz `Color`), components as rationals. -/
structure Color where
  r : ℚ
  g : ℚ
  b : ℚ
deriving DecidableEq

/-- A 3D point of the incoming message (`robot_msgs::Point32`). -/
structure Point3 where
  x : ℚ
  y : ℚ
  z : ℚ
deriving DecidableEq

/-- A named per-point channel (`robot_msgs::ChannelFloat32`). -/
structure Channel where
  name : String
  vals : List ℚ
deriving DecidableEq

/-- An incoming point-cloud message (`robot_msgs::PointCloud`). -/
structure PointCloud where
  frame_id : String
  pts : List Point3
  chan : List Channel
deriving DecidableEq

/-- A renderer-ready point (`ogre_tools::PointCloud::Point`): position plus
colour components. -/
structure CloudPoint where
  x : ℚ
  y : ℚ
  z : ℚ
  r : ℚ
  g : ℚ
  b : ℚ
deriving DecidableEq

/-- A buffered cloud entry (`PointCloudBase::CloudInfo`): the (possibly
transformed and clamped) message, its age in seconds, and the point count
recorded at insertion. -/
structure CloudInfo where
  message : PointCloud
  time : ℚ
  num_points : Nat
deriving DecidableEq

/-- Style enumeration value `Billboards` (= 0). -/
def Billboards : Int := 0

/-- Style enumeration value `Points` (= 1). -/
def Points : Int := 1

/-- Constant `StyleCount` (= 2). -/
def StyleCount : Int := 2

/-- Channel-render enumeration value `Intensity` (= 0). -/
def Intensity : Int := 0

/-- Channel-render enumeration value `ColorRGBSpace` (= 1). -/
def ColorRGBSpace : Int := 1

/-- Channel-render enumeration value `NormalSphere` (= 2). -/
def NormalSphere : Int := 2

/-- Channel-render enumeration value `Curvature` (= 3). -/
def Curvature : Int := 3

/-- Constant `ChannelRenderCount` (= 4). -/
def ChannelRenderCount : Int := 4

/-- Function `std::min` on floats: returns `b` when `b < a`, else `a`. -/
def fmin (a b : ℚ) : ℚ := if b < a then b else a

/-- Function `std::max` on floats: returns `b` when `a < b`, else `a`. -/
def fmax (a b : ℚ) : ℚ := if a < b then b else a

/-- Colorizer for intensity/curvature channels (`transformIntensity`,
point_cloud_base.cpp:346-353): normalise against the intensity bounds
(1 when the bound difference is not positive), clamp to [0,1], and blend each
colour component of the point towards `min_color`. -/
def transformIntensity (val : ℚ) (point : CloudPoint) (min_color : Color)
    (min_intensity max_intensity diff_intensity : ℚ) : CloudPoint :=
  let n0 : ℚ := if diff_intensity > 0 then (val - min_intensity) / diff_intensity else 1
  let n : ℚ := fmin 1 (fmax 0 n0)
  { point with
      r := point.r * n + min_color.r * (1 - n)
      g := point.g * n + min_color.g * (1 - n)
      b := point.b * n + min_color.b * (1 - n) }

/-- Colorizer for a packed-rgb channel (`transformRGB`,
point_cloud_base.cpp:355-361).  The C++ code reinterprets the bit pattern of
the channel float as a 32-bit integer; this embedding receives that bit
pattern directly as a natural number below 2^32 (the source uses a signed
`int`, but the shifts and masks agree with the unsigned reading whenever the
top byte is zero, which is the only case the specification speaks about). -/
def transformRGB (rgb : Nat) (point : CloudPoint) (min_color : Color)
    (min_intensity max_intensity diff_intensity : ℚ) : CloudPoint :=
  { point with
      r := (((rgb >>> 16) &&& 255 : Nat) : ℚ) / 255
      g := (((rgb >>> 8) &&& 255 : Nat) : ℚ) / 255
      b := ((rgb &&& 255 : Nat) : ℚ) / 255 }

/-- Colorizer for an `r` channel (`transformR`): the raw value becomes the red
component. -/
def transformR (val : ℚ) (point : CloudPoint) (min_color : Color)
    (min_intensity max_intensity diff_intensity : ℚ) : CloudPoint :=
  { point with r := val }

/-- Colorizer for a `g` channel (`transformG`). -/
def transformG (val : ℚ) (point : CloudPoint) (min_color : Color)
    (min_intensity max_intensity diff_intensity : ℚ) : CloudPoint :=
  { point with g := val }

/-- Colorizer for a `b` channel (`transformB`). -/
def transformB (val : ℚ) (point : CloudPoint) (min_color : Color)
    (min_intensity max_intensity diff_intensity : ℚ) : CloudPoint :=
  { point with b := val }

/-- Bit pattern carried by a packed-rgb channel value.  Bit-level IEEE-754
representations are outside the rational embedding; a packed channel value is
modelled as a rational that directly stores the 32-bit pattern (no claim in
this development observes the pipeline output of the packed-rgb path, which
is specified separately on `transformRGB`). -/
def ratBits (v : ℚ) : Nat := v.num.toNat % 4294967296

/-- The `ChannelType` enumeration local to `PointCloudBase::transformCloud`
(point_cloud_base.cpp:524-533). -/
inductive ChannelType where
  | CT_INTENSITY
  | CT_RGB
  | CT_R
  | CT_G
  | CT_B
deriving DecidableEq

/-- Channel-name dispatch of the colorize loop
(point_cloud_base.cpp:555-578): which transform function a channel name
selects, `none` for names the loop skips. -/
def chanTypeOf (name : String) : Option ChannelType :=
  if name == "intensity" || name == "intensities" || name == "curvatures" || name == "curvature" then
    some ChannelType.CT_INTENSITY
  else if name == "rgb" then some ChannelType.CT_RGB
  else if name == "r" then some ChannelType.CT_R
  else if name == "g" then some ChannelType.CT_G
  else if name == "b" then some ChannelType.CT_B
  else none

/-- The guard of the per-point colorize loop (point_cloud_base.cpp:581-584):
a channel is applied only when the selected channel role matches its name. -/
def selectionMatches (channel_color_idx : Int) (name : String) : Bool :=
  (channel_color_idx == Intensity && (name == "intensity" || name == "intensities")) ||
  (channel_color_idx == Curvature && (name == "curvature" || name == "curvatures")) ||
  (channel_color_idx == ColorRGBSpace &&
    (name == "rgb" || name == "r" || name == "g" || name == "b"))

/-- The function-pointer table `funcs` indexed by `ChannelType`
(point_cloud_base.cpp:536-543), applied to one point. -/
def applyFunc (t : ChannelType) (val : ℚ) (point : CloudPoint) (min_color : Color)
    (min_intensity max_intensity diff_intensity : ℚ) : CloudPoint :=
  match t with
  | ChannelType.CT_INTENSITY =>
      transformIntensity val point min_color min_intensity max_intensity diff_intensity
  | ChannelType.CT_RGB =>
      transformRGB (ratBits val) point min_color min_intensity max_intensity diff_intensity
  | ChannelType.CT_R =>
      transformR val point min_color min_intensity max_intensity diff_intensity
  | ChannelType.CT_G =>
      transformG val point min_color min_intensity max_intensity diff_intensity
  | ChannelType.CT_B =>
      transformB val point min_color min_intensity max_intensity diff_intensity

/-- One iteration of the outer colorize loop for a single (already validated)
channel (point_cloud_base.cpp:546-593): skip unknown names, and when the
selection matches, apply the channel's transform function to every point with
the channel value of the same index. -/
def colorizeChannel (chan : Channel) (points : List CloudPoint) (min_color : Color)
    (min_intensity max_intensity diff_intensity : ℚ) (channel_color_idx : Int) :
    List CloudPoint :=
  match chanTypeOf chan.name with
  | none => points
  | some t =>
    if selectionMatches channel_color_idx chan.name then
      points.mapIdx fun i point =>
        applyFunc t (chan.vals.getD i 0) point min_color min_intensity max_intensity
          diff_intensity
    else
      points

/-- The outer colorize loop (point_cloud_base.cpp:545-593): iterate channels
in input order, skipping those whose validity flag is false. -/
def colorizePass (chans : List Channel) (oks : List Bool) (points : List CloudPoint)
    (min_color : Color) (min_intensity max_intensity diff_intensity : ℚ)
    (channel_color_idx : Int) : List CloudPoint :=
  match chans, oks with
  | [], _ => points
  | _, [] => points
  | chan :: restChans, ok :: restOks =>
    let points1 :=
      if ok then
        colorizeChannel chan points min_color min_intensity max_intensity diff_intensity
          channel_color_idx
      else points
    colorizePass restChans restOks points1 min_color min_intensity max_intensity
      diff_intensity channel_color_idx

/-- Modelled from the spec: `getROSCloudChannelIndex` is declared outside this
repository fragment; per §4.5 step 4 it resolves a channel by name, yielding
its index in the channel list, or -1 when no channel of that name is present
(the warning at point_cloud_base.cpp:486 speaks only of presence). -/
def getROSCloudChannelIndex (chans : List Channel) (name : String) : Int :=
  match chans.findIdx? (fun c => c.name == name) with
  | some i => (i : Int)
  | none => -1

/-- Modelled from the spec: `robotToOgre` lives in common.h, outside this
fragment; §4.5 step 6 describes it as the fixed basis rotation taking robot
coordinates (x forward, y left, z up) to the renderer's frame (x right,
y up, z backward). -/
def robotToOgre (p : Point3) : Point3 :=
  { x := -p.y, y := p.z, z := -p.x }

/-- The running data of the first channel loop of `transformCloud`
(point_cloud_base.cpp:432-478): the intensity bounds, the
`intensity_bounds_changed_` flag and the `use_normals_as_coordinates` flag. -/
structure ScanState where
  min_intensity : ℚ
  max_intensity : ℚ
  bounds_changed : Bool
  use_normals : Bool
deriving DecidableEq

/-- The hard-coded autoscale ceiling (point_cloud_base.cpp:451): channel
values are capped to 4096 in place before the bounds are computed. -/
def capIntensity (v : ℚ) : ℚ := fmin v 4096

/-- One iteration of the first channel loop of `transformCloud`
(point_cloud_base.cpp:432-478): compute the channel's validity flag
(`|vals| == point_count`), run the intensity/curvature autoscale when in auto
mode (re-seeding the bounds at 999999 / -999999 and folding min/max over the
capped values, mutating the channel), and latch `use_normals_as_coordinates`
when an `nx` channel is seen under the NormalSphere selection. -/
def scanChannel (auto_bounds : Bool) (channel_color_idx : Int) (point_count : Nat)
    (st : ScanState) (chan : Channel) : ScanState × Channel × Bool :=
  let ok : Bool := chan.vals.length == point_count
  if auto_bounds && ok && (chan.name == "intensity" || chan.name == "intensities") &&
      (channel_color_idx == Intensity) then
    let vals := chan.vals.map capIntensity
    ({ st with
        min_intensity := vals.foldl fmin 999999
        max_intensity := vals.foldl fmax (-999999)
        bounds_changed := true },
      { chan with vals := vals }, ok)
  else if auto_bounds && ok && (chan.name == "curvature" || chan.name == "curvatures") &&
      (channel_color_idx == Curvature) then
    let vals := chan.vals.map capIntensity
    ({ st with
        min_intensity := vals.foldl fmin 999999
        max_intensity := vals.foldl fmax (-999999)
        bounds_changed := true },
      { chan with vals := vals }, ok)
  else if chan.name == "nx" && channel_color_idx == NormalSphere then
    ({ st with use_normals := true }, chan, ok)
  else
    (st, chan, ok)

/-- The whole first channel loop: left-to-right over the channel list,
returning the final scan state, the (possibly clamped) channels, and the
validity flags in channel order. -/
def scanChannels (auto_bounds : Bool) (channel_color_idx : Int) (point_count : Nat) :
    List Channel → ScanState → ScanState × List Channel × List Bool
  | [], st => (st, [], [])
  | chan :: rest, st =>
    let r1 := scanChannel auto_bounds channel_color_idx point_count st chan
    let r2 := scanChannels auto_bounds channel_color_idx point_count rest r1.1
    (r2.1, r1.2.1 :: r2.2.1, r1.2.2 :: r2.2.2)

/-- Everything `transformCloud` has computed by line 490 of
point_cloud_base.cpp: the transformed-and-clamped cloud, its point count, the
final scan state, the per-channel validity flags, the (possibly reset)
normals flag and the resolved nx/ny/nz channel indices. -/
structure PrepResult where
  cloud : PointCloud
  point_count : Nat
  scan : ScanState
  oks : List Bool
  use_normals : Bool
  nx_idx : Int
  ny_idx : Int
  nz_idx : Int

/-- The first half of `PointCloudBase::transformCloud`
(point_cloud_base.cpp:400-490): apply the TF reprojection (on failure the
cloud is kept untransformed, only an error is logged), run the channel scan,
resolve the normal channels, and fall back to xyz coordinates when `ny` or
`nz` is missing. -/
def transformPrep (auto_bounds : Bool) (channel_color_idx : Int)
    (min_intensity max_intensity : ℚ) (bounds_changed : Bool)
    (cloud0 : PointCloud) (tf : Option (Point3 → Point3)) : PrepResult :=
  let cloud1 : PointCloud :=
    match tf with
    | some f => { cloud0 with pts := cloud0.pts.map f }
    | none => cloud0
  let point_count := cloud1.pts.length
  let scanned := scanChannels auto_bounds channel_color_idx point_count cloud1.chan
    { min_intensity := min_intensity, max_intensity := max_intensity,
      bounds_changed := bounds_changed, use_normals := false }
  let cloud2 : PointCloud := { cloud1 with chan := scanned.2.1 }
  let nx := getROSCloudChannelIndex cloud2.chan ("nx")
  let ny := getROSCloudChannelIndex cloud2.chan ("ny")
  let nz := getROSCloudChannelIndex cloud2.chan ("nz")
  let use_normals :=
    if scanned.1.use_normals && (ny == -1 || nz == -1) then false
    else scanned.1.use_normals
  { cloud := cloud2, point_count := point_count, scan := scanned.1,
    oks := scanned.2.2, use_normals := use_normals,
    nx_idx := nx, ny_idx := ny, nz_idx := nz }

/-- Value of channel `ci` at point `i`, as the unchecked C++ indexing
`cloud->chan[ci].vals[i]` reads it; out-of-range reads are given the default
0 here (the source has no bound check — see the safety analysis below). -/
def chanValAt (chans : List Channel) (ci : Int) (i : Nat) : ℚ :=
  ((chans.getD ci.toNat { name := "", vals := [] }).vals.getD i 0)

/-- The point-construction loop body of `transformCloud`
(point_cloud_base.cpp:495-521): choose the coordinate source (normal
channels or xyz), apply the robot-to-renderer rotation, and initialise the
colour to `max_color_`. -/
def buildPoint (chans : List Channel) (pts : List Point3) (use_normals : Bool)
    (nx ny nz : Int) (max_color : Color) (i : Nat) : CloudPoint :=
  let raw : Point3 :=
    if use_normals && nx != -1 && ny != -1 && nz != -1 then
      { x := chanValAt chans nx i, y := chanValAt chans ny i, z := chanValAt chans nz i }
    else
      pts.getD i { x := 0, y := 0, z := 0 }
  let pos := robotToOgre raw
  { x := pos.x, y := pos.y, z := pos.z,
    r := max_color.r, g := max_color.g, b := max_color.b }

/-- The renderer-ready point array `transformCloud` produces for a cloud
(point_cloud_base.cpp:492-593): build all points, then run the colorize
pass with the bounds that resulted from the scan. -/
def transformPoints (auto_bounds : Bool) (channel_color_idx : Int)
    (min_intensity max_intensity : ℚ) (bounds_changed : Bool)
    (min_color max_color : Color)
    (cloud0 : PointCloud) (tf : Option (Point3 → Point3)) : List CloudPoint :=
  let prep := transformPrep auto_bounds channel_color_idx min_intensity max_intensity
    bounds_changed cloud0 tf
  let diff_intensity := prep.scan.max_intensity - prep.scan.min_intensity
  let points0 := (List.range prep.point_count).map
    (buildPoint prep.cloud.chan prep.cloud.pts prep.use_normals prep.nx_idx prep.ny_idx
      prep.nz_idx max_color)
  colorizePass prep.cloud.chan prep.oks points0 min_color prep.scan.min_intensity
    prep.scan.max_intensity diff_intensity channel_color_idx

/-- An observable interaction with the collaborators: a property-panel
notification (`*_property_->changed()`, carrying the property's title) or a
render request (`causeRender()`). -/
inductive UIEvent where
  | notify (prop : String)
  | render
deriving DecidableEq

/-- The controller state of `PointCloudBase`, with the renderer's vertex
queue, the UI-event trace, and one specification ghost field
(`msg_since_reset`, true when a message has been received since the last
buffer-clearing operation; it appears in no transition guard). -/
structure PCState where
  style : Int
  billboard_size : ℚ
  alpha : ℚ
  min_color : Color
  max_color : Color
  min_intensity : ℚ
  max_intensity : ℚ
  auto_compute_intensity_bounds : Bool
  intensity_bounds_changed : Bool
  channel_color_idx : Int
  point_decay_time : ℚ
  fixed_frame : String
  clouds : List CloudInfo
  new_cloud : Bool
  renderer : List CloudPoint
  use_points : Bool
  channel_options : List (String × Int)
  events : List UIEvent
  msg_since_reset : Bool
deriving DecidableEq

/-- Record a `causeRender()` call. -/
def causeRender (s : PCState) : PCState :=
  { s with events := s.events ++ [UIEvent.render] }

/-- Record a property notification (`*_property_->changed()`). -/
def notifyProp (s : PCState) (prop : String) : PCState :=
  { s with events := s.events ++ [UIEvent.notify prop] }

/-- Source method `PointCloudBase::setAlpha` (point_cloud_base.cpp:94-104): store the
alpha, forward it to the renderer, notify the Alpha property.  The source has
no `causeRender()` call here. -/
def setAlpha (s : PCState) (alpha : ℚ) : PCState :=
  notifyProp { s with alpha := alpha } ("Alpha")

/-- Source method `PointCloudBase::setMaxColor` (point_cloud_base.cpp:106-116). -/
def setMaxColor (s : PCState) (color : Color) : PCState :=
  causeRender (notifyProp { s with max_color := color } ("Max Color"))

/-- Source method `PointCloudBase::setMinColor` (point_cloud_base.cpp:118-128). -/
def setMinColor (s : PCState) (color : Color) : PCState :=
  causeRender (notifyProp { s with min_color := color } ("Min Color"))

/-- Source method `PointCloudBase::setMinIntensity` (point_cloud_base.cpp:130-144): store
the value, then clamp it down to `max_intensity_` if it exceeds it. -/
def setMinIntensity (s : PCState) (val : ℚ) : PCState :=
  let v := if val > s.max_intensity then s.max_intensity else val
  causeRender (notifyProp { s with min_intensity := v } ("Min Intensity"))

/-- Source method `PointCloudBase::setMaxIntensity` (point_cloud_base.cpp:146-160): store
the value, then clamp it up to `min_intensity_` if it is below it. -/
def setMaxIntensity (s : PCState) (val : ℚ) : PCState :=
  let v := if val < s.min_intensity then s.min_intensity else val
  causeRender (notifyProp { s with max_intensity := v } ("Max Intensity"))

/-- Source method `PointCloudBase::setDecayTime` (point_cloud_base.cpp:162-172). -/
def setDecayTime (s : PCState) (time : ℚ) : PCState :=
  causeRender (notifyProp { s with point_decay_time := time } ("Decay Time"))

/-- Source method `PointCloudBase::setAutoComputeIntensityBounds`
(point_cloud_base.cpp:174-184). -/
def setAutoComputeIntensityBounds (s : PCState) (compute : Bool) : PCState :=
  causeRender
    (notifyProp { s with auto_compute_intensity_bounds := compute }
      ("Autocompute Intensity Bounds"))

/-- Source method `PointCloudBase::setStyle` (point_cloud_base.cpp:186-204): store the
style, switch the renderer between billboards and points, notify, render.
(The `ROS_ASSERT(style < StyleCount)` guards callers only.) -/
def setStyle (s : PCState) (style : Int) : PCState :=
  causeRender
    (notifyProp { s with style := style, use_points := style == Points } ("Style"))

/-- Source method `PointCloudBase::setChannelColorIndex` (point_cloud_base.cpp:209-215):
store the index.  The source neither notifies a property nor requests a
render here. -/
def setChannelColorIndex (s : PCState) (channel_color_idx : Int) : PCState :=
  { s with channel_color_idx := channel_color_idx }

/-- Source method `PointCloudBase::setBillboardSize` (point_cloud_base.cpp:217-233). -/
def setBillboardSize (s : PCState) (size : ℚ) : PCState :=
  causeRender (notifyProp { s with billboard_size := size } ("Billboard Size"))

/-- The second half of `transformCloud` plus `processMessage`
(point_cloud_base.cpp:378-398 and 595-610): build the entry and the point
array, clear the renderer first when the decay time is zero, append the
points, request a render; then, under the clouds mutex, clear the buffer when
the decay time is zero, append the entry and set `new_cloud_`.
`addMessage` (point_cloud_base.cpp:613-616) just forwards here. -/
def processMessage (s : PCState) (cloud0 : PointCloud) (tf : Option (Point3 → Point3)) :
    PCState :=
  let prep := transformPrep s.auto_compute_intensity_bounds s.channel_color_idx
    s.min_intensity s.max_intensity s.intensity_bounds_changed cloud0 tf
  let points := transformPoints s.auto_compute_intensity_bounds s.channel_color_idx
    s.min_intensity s.max_intensity s.intensity_bounds_changed s.min_color s.max_color
    cloud0 tf
  let info : CloudInfo := { message := prep.cloud, time := 0, num_points := prep.point_count }
  let s1 := { s with
    min_intensity := prep.scan.min_intensity
    max_intensity := prep.scan.max_intensity
    intensity_bounds_changed := prep.scan.bounds_changed
    renderer := (if s.point_decay_time = 0 then [] else s.renderer) ++ points }
  let s2 := causeRender s1
  { s2 with
    clouds := (if s2.point_decay_time = 0 then [] else s2.clouds) ++ [info]
    new_cloud := true
    msg_since_reset := true }

/-- Source method `PointCloudBase::addMessage` (point_cloud_base.cpp:613-616). -/
def addMessage (s : PCState) (cloud0 : PointCloud) (tf : Option (Point3 → Point3)) :
    PCState :=
  processMessage s cloud0 tf

/-- The eviction loop of `PointCloudBase::update`
(point_cloud_base.cpp:266-280): while the front entry's age exceeds the decay
time, pop its recorded point count from the front of the renderer queue and
drop the entry; reports whether anything was removed. -/
def evictLoop (decay : ℚ) : List CloudInfo → List CloudPoint →
    List CloudInfo × List CloudPoint × Bool
  | [], renderer => ([], renderer, false)
  | info :: rest, renderer =>
    if info.time > decay then
      let r := evictLoop decay rest (renderer.drop info.num_points)
      (r.1, r.2.1, true)
    else
      (info :: rest, renderer, false)

/-- The option registry of the channel rebuild in `PointCloudBase::update`
(point_cloud_base.cpp:293-332): the label/role a channel name contributes to
the Channel property, if any.  Note the source maps only `rgb` and `r` (not
`g` or `b`) to "Color (RGB)". -/
def optionOfChannel (name : String) : Option (String × Int) :=
  if name == "intensity" || name == "intensities" then some ("Intensity", Intensity)
  else if name == "rgb" || name == "r" then some ("Color (RGB)", ColorRGBSpace)
  else if name == "nx" then some ("Normal Sphere", NormalSphere)
  else if name == "curvature" || name == "curvatures" then some ("Curvature", Curvature)
  else none

/-- The channel-option loop of `PointCloudBase::update`
(point_cloud_base.cpp:287-339): walk the channels of the front buffer entry,
adding an option per recognised channel and defaulting a -1 selection to the
role of the first recognised channel. -/
def scanOptions : List Channel → Int → List (String × Int) × Int
  | [], idx => ([], idx)
  | chan :: rest, idx =>
    match optionOfChannel chan.name with
    | some opt =>
      let idx1 := if idx == -1 then opt.2 else idx
      let r := scanOptions rest idx1
      (opt :: r.1, r.2)
    | none => scanOptions rest idx

/-- Source method `PointCloudBase::update` (point_cloud_base.cpp:245-344): re-broadcast the
intensity bounds if the autoscaler changed them, age every buffered entry by
`dt`, evict expired entries when the decay time is positive (requesting a
render if any were removed), and, when a new cloud has arrived and the buffer
is non-empty, rebuild the Channel options from the front entry and re-apply
the (possibly defaulted) channel selection.  Finally clear `new_cloud_`. -/
def update (s : PCState) (dt : ℚ) : PCState :=
  let s0 :=
    if s.intensity_bounds_changed then
      let sA := setMinIntensity s s.min_intensity
      let sB := setMaxIntensity sA sA.max_intensity
      { sB with intensity_bounds_changed := false }
    else s
  let aged := s0.clouds.map fun info => { info with time := info.time + dt }
  let ev :=
    if s0.point_decay_time > 0 then evictLoop s0.point_decay_time aged s0.renderer
    else (aged, s0.renderer, false)
  let s1 := { s0 with clouds := ev.1, renderer := ev.2.1 }
  let s2 := if ev.2.2 then causeRender s1 else s1
  let s3 :=
    match ev.1 with
    | [] => s2
    | front :: _ =>
      if s2.new_cloud then
        let scanned := scanOptions front.message.chan s2.channel_color_idx
        setChannelColorIndex
          (notifyProp { s2 with channel_options := scanned.1 } ("Channel")) scanned.2
      else s2
  { s3 with new_cloud := false }

/-- Source method `PointCloudBase::reset` (point_cloud_base.cpp:658-666): clear the buffer
and the renderer together. -/
def reset (s : PCState) : PCState :=
  { s with clouds := [], renderer := [], msg_since_reset := false }

/-- Source method `PointCloudBase::onDisable` (point_cloud_base.cpp:239-243): same clearing
of buffer and renderer. -/
def onDisable (s : PCState) : PCState :=
  { s with clouds := [], renderer := [], msg_since_reset := false }

/-- Source method `PointCloudBase::fixedFrameChanged` (point_cloud_base.cpp:618-621): the
display framework stores the new fixed frame and the override resets. -/
def fixedFrameChanged (s : PCState) (frame : String) : PCState :=
  reset { s with fixed_frame := frame }

/-- The state after the constructor (point_cloud_base.cpp:57-87) and
`createProperties`: the constructor's member initialisers followed by its
calls to `setStyle`, `setBillboardSize`, `setChannelColorIndex` and
`setAlpha(1.0f)` (the property pointers are still null during construction,
so those calls emit no notifications). -/
def initState : PCState :=
  { style := Billboards
    billboard_size := 1/100
    alpha := 1
    min_color := { r := 0, g := 0, b := 0 }
    max_color := { r := 1, g := 1, b := 1 }
    min_intensity := 0
    max_intensity := 4096
    auto_compute_intensity_bounds := true
    intensity_bounds_changed := false
    channel_color_idx := -1
    point_decay_time := 0
    fixed_frame := ""
    clouds := []
    new_cloud := false
    renderer := []
    use_points := false
    channel_options := []
    events := []
    msg_since_reset := false }

/-- The public operations of the Display Controller (§4.6), as an alphabet
for reachable-state reasoning. -/
inductive Op where
  | addMessage (cloud : PointCloud) (tf : Option (Point3 → Point3))
  | update (dt : ℚ)
  | reset
  | onDisable
  | fixedFrameChanged (frame : String)
  | setStyle (style : Int)
  | setBillboardSize (size : ℚ)
  | setAlpha (alpha : ℚ)
  | setMinColor (color : Color)
  | setMaxColor (color : Color)
  | setDecayTime (time : ℚ)
  | setAutoComputeIntensityBounds (compute : Bool)
  | setMinIntensity (val : ℚ)
  | setMaxIntensity (val : ℚ)
  | setChannelColorIndex (idx : Int)

/-- Interpretation of one public operation on the controller state. -/
def step (s : PCState) : Op → PCState
  | Op.addMessage cloud tf => addMessage s cloud tf
  | Op.update dt => update s dt
  | Op.reset => reset s
  | Op.onDisable => onDisable s
  | Op.fixedFrameChanged frame => fixedFrameChanged s frame
  | Op.setStyle style => setStyle s style
  | Op.setBillboardSize size => setBillboardSize s size
  | Op.setAlpha alpha => setAlpha s alpha
  | Op.setMinColor color => setMinColor s color
  | Op.setMaxColor color => setMaxColor s color
  | Op.setDecayTime time => setDecayTime s time
  | Op.setAutoComputeIntensityBounds compute => setAutoComputeIntensityBounds s compute
  | Op.setMinIntensity val => setMinIntensity s val
  | Op.setMaxIntensity val => setMaxIntensity s val
  | Op.setChannelColorIndex idx => setChannelColorIndex s idx

/-- State reached from the freshly constructed display by a sequence of
public operations. -/
def run (ops : List Op) : PCState :=
  ops.foldl step initState

/-- The intensity/curvature colorizer as the specification words it (§4.4):
`t = clamp((value − min_intensity) / diff, 0, 1)` when `diff > 0`, else
`t = 1`, then each colour component becomes
`point_component * t + min_color_component * (1 − t)`.  Stated independently
of the source so the source function can be compared against it. -/
def specIntensityColor (value : ℚ) (point : CloudPoint) (min_color : Color)
    (min_intensity max_intensity : ℚ) : CloudPoint :=
  let diff := max_intensity - min_intensity
  let t : ℚ := if diff > 0 then min 1 (max 0 ((value - min_intensity) / diff)) else 1
  { point with
      r := point.r * t + min_color.r * (1 - t)
      g := point.g * t + min_color.g * (1 - t)
      b := point.b * t + min_color.b * (1 - t) }

/-- The specification's byte-triple packing `0x00RRGGBB` (§4.4, §8): the
reinterpret round trip float-bits → float → int recovers exactly these bits,
so the packed value reaches `transformRGB` unchanged. -/
def packRGB (r g b : Nat) : Nat := r * 65536 + g * 256 + b

/-- The Channel-option registry as the claim states it: `rgb`, `r`, `g` and
`b` all map to "Color (RGB)", and the options are read from the newest
buffered entry.  Stated independently of the source for comparison. -/
def specOptionOfChannel (name : String) : Option (String × Int) :=
  if name == "intensity" || name == "intensities" then some ("Intensity", Intensity)
  else if name == "rgb" || name == "r" || name == "g" || name == "b" then
    some ("Color (RGB)", ColorRGBSpace)
  else if name == "nx" then some ("Normal Sphere", NormalSphere)
  else if name == "curvature" || name == "curvatures" then some ("Curvature", Curvature)
  else none

/-- Options the claim predicts for a channel list. -/
def specChannelOptions (chans : List Channel) : List (String × Int) :=
  chans.filterMap fun c => specOptionOfChannel c.name

/-- The channels that survive the validity filter of the colorize loop, in
order: used to state that invalid channels are skipped. -/
def selectValid : List Channel → List Bool → List Channel
  | [], _ => []
  | _, [] => []
  | chan :: restChans, ok :: restOks =>
    if ok then chan :: selectValid restChans restOks
    else selectValid restChans restOks

/-- Channel names the Intensity selection colorizes. -/
def isIntensityName (name : String) : Bool :=
  name == "intensity" || name == "intensities"

/-- The UI events an operation emitted beyond those already in the trace. -/
def evDelta (s s' : PCState) : List UIEvent := s'.events.drop s.events.length

/-- What the claim asserts of every configuration setter: the step from `s`
to `s'` notified the named property and requested a render. -/
def notifiesAndRenders (s s' : PCState) (prop : String) : Prop :=
  UIEvent.notify prop ∈ evDelta s s' ∧ UIEvent.render ∈ evDelta s s'

/-- The renderer/buffer accounting invariant: the renderer's point total
equals the sum of the recorded point counts of the buffered entries. -/
def renderInv (s : PCState) : Prop :=
  s.renderer.length = (s.clouds.map fun info => info.num_points).sum

/-- True when a sequence of operations never sets a non-zero decay time. -/
def decayOpsZero (ops : List Op) : Bool :=
  ops.all fun op =>
    match op with
    | Op.setDecayTime t => t == 0
    | _ => true

/-- Whether the point-construction loop takes the normals-as-coordinates
branch (point_cloud_base.cpp:499). -/
def normalCoordsTaken (p : PrepResult) : Bool :=
  p.use_normals && p.nx_idx != -1 && p.ny_idx != -1 && p.nz_idx != -1

/-- The in-bounds condition the claim asserts for the normals branch: if the
branch is taken, each of the nx/ny/nz channels has at least `point_count`
values. -/
def normalReadsOk (p : PrepResult) : Bool :=
  !(normalCoordsTaken p) ||
  (decide (p.point_count ≤
      (p.cloud.chan.getD p.nx_idx.toNat { name := "", vals := [] }).vals.length) &&
   decide (p.point_count ≤
      (p.cloud.chan.getD p.ny_idx.toNat { name := "", vals := [] }).vals.length) &&
   decide (p.point_count ≤
      (p.cloud.chan.getD p.nz_idx.toNat { name := "", vals := [] }).vals.length))

/-- A cloud with zero points and a (trivially well-formed) intensity
channel. -/
def c1cloud : PointCloud :=
  { frame_id := "", pts := [], chan := [{ name := "intensity", vals := [] }] }

/-- Intensity selected, then the empty cloud ingested under auto bounds. -/
def c1state : PCState :=
  run [Op.setChannelColorIndex Intensity, Op.addMessage c1cloud none]

/-- One-point clouds with no channels, for buffer-shape scenarios. -/
def c4cloudA : PointCloud :=
  { frame_id := "", pts := [{ x := 0, y := 0, z := 0 }], chan := [] }

/-- A second one-point cloud. -/
def c4cloudB : PointCloud :=
  { frame_id := "", pts := [{ x := 1, y := 0, z := 0 }], chan := [] }

/-- Buffer two clouds under a positive decay time, then set the decay time
to zero. -/
def c4ops : List Op :=
  [Op.setDecayTime 1, Op.addMessage c4cloudA none, Op.addMessage c4cloudB none,
   Op.setDecayTime 0]

/-- A one-point cloud whose intensity channel is constant (max == min). -/
def c6cloud : PointCloud :=
  { frame_id := "", pts := [{ x := 0, y := 0, z := 0 }],
    chan := [{ name := "intensity", vals := [2048] }] }

/-- Select Intensity, switch auto bounds off, ingest the constant-channel
cloud: the bounds stay at their (0, 4096) defaults. -/
def c6ops : List Op :=
  [Op.setChannelColorIndex Intensity, Op.setAutoComputeIntensityBounds false,
   Op.addMessage c6cloud none]

/-- A constant-intensity cloud for the amended idempotence law. -/
def w6cloud : PointCloud :=
  { frame_id := "", pts := [{ x := 1, y := 2, z := 3 }],
    chan := [{ name := "intensity", vals := [7] }] }

/-- The first point produced for `w6cloud` under auto bounds with Intensity
selected. -/
def w6point : CloudPoint :=
  (transformPoints true Intensity 0 4096 false { r := 0, g := 0, b := 0 }
    { r := 1, g := 1, b := 1 } w6cloud none).headD
    { x := 0, y := 0, z := 0, r := 0, g := 0, b := 0 }

/-- A cloud whose only channel is `g` (recognised by the claim's registry but
not by the source's option scan). -/
def c8cloudA : PointCloud :=
  { frame_id := "", pts := [{ x := 0, y := 0, z := 0 }], chan := [{ name := "g", vals := [1] }] }

/-- A newer cloud carrying an intensity channel. -/
def c8cloudB : PointCloud :=
  { frame_id := "", pts := [{ x := 0, y := 0, z := 0 }],
    chan := [{ name := "intensity", vals := [2] }] }

/-- Buffer `c8cloudA` then `c8cloudB` under a positive decay time, so the
buffer holds two entries, oldest first. -/
def c8state : PCState :=
  run [Op.setDecayTime 1, Op.addMessage c8cloudA none, Op.addMessage c8cloudB none]

/-- A fallback entry for list lookups in statements. -/
def cloudInfoDefault : CloudInfo :=
  { message := { frame_id := "", pts := [], chan := [] }, time := 0, num_points := 0 }

/-- Single buffered cloud with an intensity channel, fresh (`new_cloud`). -/
def w8state : PCState := run [Op.addMessage c8cloudB none]

/-- Two points, with an `nx` channel shorter than the point array and
well-formed `ny`/`nz` channels. -/
def c10cloud : PointCloud :=
  { frame_id := "",
    pts := [{ x := 0, y := 0, z := 0 }, { x := 1, y := 1, z := 1 }],
    chan := [{ name := "nx", vals := [1] },
             { name := "ny", vals := [1, 2] },
             { name := "nz", vals := [1, 2] }] }

/-- The prepared state `transformCloud` reaches for `c10cloud` when
NormalSphere is the selected channel (the state reached from construction by
`setChannelColorIndex NormalSphere`). -/
def c10prep : PrepResult :=
  transformPrep true NormalSphere 0 4096 false c10cloud none

/-- The buffer after the aging pass of `update`: every entry older by `dt`. -/
def agedOf (s : PCState) (dt : ℚ) : List CloudInfo :=
  s.clouds.map fun info => { info with time := info.time + dt }

/-- The (buffer, renderer, removed-flag) triple after the aging and eviction
passes of `update`. -/
def updateEv (s : PCState) (dt : ℚ) : List CloudInfo × List CloudPoint × Bool :=
  if s.point_decay_time > 0 then evictLoop s.point_decay_time (agedOf s dt) s.renderer
  else (agedOf s dt, s.renderer, false)

/-- The point carries exactly the colour `C`. -/
def colourIs (C : Color) (p : CloudPoint) : Prop :=
  p.r = C.r ∧ p.g = C.g ∧ p.b = C.b

section ConcreteEvaluations

attribute [local semireducible] Rat.add Rat.mul Rat.sub Rat.inv Rat.ofScientific

/-- C1: `addMessage` of a zero-point cloud that carries a (trivially
well-formed) `intensity` channel, under auto intensity bounds with the
Intensity channel selected, leaves the inverted seed bounds
`min_intensity = 999999 > max_intensity = -999999` in the observable state —
the code violates the claimed invariant `min_intensity ≤ max_intensity`. -/
theorem addMessage_empty_cloud_inverts_intensity_bounds :
    c1state.max_intensity < c1state.min_intensity ∧
    c1state.min_intensity = 999999 ∧ c1state.max_intensity = -999999 := by
  decide

/-- C4 counterexample: buffering two clouds under `decay_time = 1` and then
calling `setDecayTime 0` reaches a state with `decay_time == 0`, a message
received since the last reset, and two buffered entries — the claimed
invariant `|buffer| == 1` is false as stated. -/
theorem decay_zero_buffer_not_singleton :
    (run c4ops).point_decay_time = 0 ∧ (run c4ops).msg_since_reset = true ∧
    (run c4ops).clouds.length = 2 := by
  decide

/-- C6 counterexample: with auto intensity bounds off (bounds at their
defaults 0/4096), a cloud whose selected intensity channel is constant at
2048 (max == min) renders its point at half-grey, not at
`max_color = (1,1,1)` — the claimed law fails without the auto-bounds
hypothesis. -/
theorem constant_channel_not_max_color_without_auto :
    (run c6ops).max_color = { r := 1, g := 1, b := 1 } ∧
    (run c6ops).renderer.map (fun p => (p.r, p.g, p.b)) =
      [((1 : ℚ)/2, (1 : ℚ)/2, (1 : ℚ)/2)] := by
  decide

/-- C8 counterexample: with two buffered clouds (oldest has only a `g`
channel, newest has an `intensity` channel) the option rebuild in `update`
produces no options at all, while the claim predicts the newest entry's
channels mapped with `g` included — both the newest-entry part and the
`rgb/r/g/b` registry part of the claim fail on this input. -/
theorem update_options_from_front_not_newest :
    (update c8state 0).channel_options ≠
      specChannelOptions
        (((update c8state 0).clouds.getLastD cloudInfoDefault).message.chan) ∧
    (update c8state 0).channel_options = [] ∧
    specChannelOptions
        (((update c8state 0).clouds.getLastD cloudInfoDefault).message.chan) =
      [("Intensity", Intensity)] := by
  decide

/-- C9 counterexample: `setAlpha` notifies its property but never requests a
render, and `setChannelColorIndex` does neither — the claim that every
configuration setter notifies and requests a render is false. -/
theorem setters_missing_notify_or_render :
    ¬ (notifiesAndRenders initState (setAlpha initState (1/2)) ("Alpha") ∧
       notifiesAndRenders initState (setChannelColorIndex initState Intensity)
         ("Channel")) := by
  unfold notifiesAndRenders
  decide

/-- C10: for `c10cloud` (an `nx` channel of 1 value against 2 points, with
well-formed `ny`/`nz`) under the NormalSphere selection, the code takes the
normals-as-coordinates branch yet the `nx` read at point index 1 is out of
bounds: with `Option`-returning indexing the branch reaches a `none` read,
refuting the claimed bounds-safety. -/
theorem normals_branch_reads_out_of_bounds :
    normalCoordsTaken c10prep = true ∧
    normalReadsOk c10prep = false ∧
    (c10prep.cloud.chan.getD c10prep.nx_idx.toNat
        { name := "", vals := [] }).vals[1]? = none ∧
    c10prep.point_count = 2 := by
  decide

end ConcreteEvaluations

/-- C7: packing any byte triple as `0x00RRGGBB` and passing the bit pattern
through the packed-RGB colorizer yields exactly `(r/255, g/255, b/255)` on
the output point, for every point and regardless of `min_color` and the
intensity bounds (the reinterpret round trip on the float is the identity on
bits). -/
theorem packed_rgb_roundtrip :
    ∀ (r g b : Nat), r < 256 → g < 256 → b < 256 →
    ∀ (point : CloudPoint) (mc : Color) (mn mx df : ℚ),
      transformRGB (packRGB r g b) point mc mn mx df =
        { point with r := (r : ℚ) / 255, g := (g : ℚ) / 255, b := (b : ℚ) / 255 } := by
  intro r g b hr hg hb point mc mn mx df
  have e16 : (2 : Nat) ^ 16 = 65536 := by norm_num
  have e8 : (2 : Nat) ^ 8 = 256 := by norm_num
  have e255 : (255 : Nat) = 2 ^ 8 - 1 := by norm_num
  have h16 : (packRGB r g b) >>> 16 &&& 255 = r := by
    rw [Nat.shiftRight_eq_div_pow, e255, Nat.and_pow_two_sub_one_eq_mod, e16, e8]
    unfold packRGB
    omega
  have h8 : (packRGB r g b) >>> 8 &&& 255 = g := by
    rw [Nat.shiftRight_eq_div_pow, e255, Nat.and_pow_two_sub_one_eq_mod, e8]
    unfold packRGB
    omega
  have h0 : (packRGB r g b) &&& 255 = b := by
    rw [e255, Nat.and_pow_two_sub_one_eq_mod, e8]
    unfold packRGB
    omega
  simp only [transformRGB, h16, h8, h0]

/-- C7 witness: the round trip at the byte triple (255, 128, 0). -/
theorem packed_rgb_roundtrip_witness :
    transformRGB (packRGB 255 128 0)
        { x := 0, y := 0, z := 0, r := 0, g := 0, b := 0 }
        { r := 0, g := 0, b := 0 } 0 4096 4096 =
      { x := 0, y := 0, z := 0,
        r := (255 : ℚ) / 255, g := (128 : ℚ) / 255, b := (0 : ℚ) / 255 } :=
  packed_rgb_roundtrip 255 128 0 (by decide) (by decide) (by decide)
    { x := 0, y := 0, z := 0, r := 0, g := 0, b := 0 } { r := 0, g := 0, b := 0 } 0 4096 4096

/-- C9 (amended): each configuration setter updates its DisplayState field;
`setStyle`, `setBillboardSize`, `setMinColor`, `setMaxColor`, `setDecayTime`,
`setAutoComputeIntensityBounds`, `setMinIntensity` and `setMaxIntensity`
notify their property and request a render, while `setAlpha` only notifies
(no render request) and `setChannelColorIndex` neither notifies nor requests
a render. -/
theorem setters_event_protocol :
    ∀ (s : PCState) (v : Int) (sz a t q q2 : ℚ) (c c2 : Color) (bb : Bool) (i : Int),
      evDelta s (setStyle s v) = [UIEvent.notify ("Style"), UIEvent.render] ∧
      (setStyle s v).style = v ∧
      evDelta s (setBillboardSize s sz) =
        [UIEvent.notify ("Billboard Size"), UIEvent.render] ∧
      (setBillboardSize s sz).billboard_size = sz ∧
      evDelta s (setMinColor s c) = [UIEvent.notify ("Min Color"), UIEvent.render] ∧
      (setMinColor s c).min_color = c ∧
      evDelta s (setMaxColor s c2) = [UIEvent.notify ("Max Color"), UIEvent.render] ∧
      (setMaxColor s c2).max_color = c2 ∧
      evDelta s (setDecayTime s t) = [UIEvent.notify ("Decay Time"), UIEvent.render] ∧
      (setDecayTime s t).point_decay_time = t ∧
      evDelta s (setAutoComputeIntensityBounds s bb) =
        [UIEvent.notify ("Autocompute Intensity Bounds"), UIEvent.render] ∧
      (setAutoComputeIntensityBounds s bb).auto_compute_intensity_bounds = bb ∧
      evDelta s (setMinIntensity s q) = [UIEvent.notify ("Min Intensity"), UIEvent.render] ∧
      evDelta s (setMaxIntensity s q2) = [UIEvent.notify ("Max Intensity"), UIEvent.render] ∧
      evDelta s (setAlpha s a) = [UIEvent.notify ("Alpha")] ∧
      (setAlpha s a).alpha = a ∧
      evDelta s (setChannelColorIndex s i) = [] ∧
      (setChannelColorIndex s i).channel_color_idx = i := by
  intro s v sz a t q q2 c c2 bb i
  simp [evDelta, setStyle, setBillboardSize, setMinColor, setMaxColor, setDecayTime,
    setAutoComputeIntensityBounds, setMinIntensity, setMaxIntensity, setAlpha,
    setChannelColorIndex, causeRender, notifyProp, List.append_assoc, List.drop_left]

theorem fmin_eq_min (a b : ℚ) : fmin a b = min a b := by
  unfold fmin
  rcases le_or_lt a b with h | h
  · rw [if_neg (not_lt.mpr h), min_eq_left h]
  · rw [if_pos h, min_eq_right h.le]

theorem fmax_eq_max (a b : ℚ) : fmax a b = max a b := by
  unfold fmax
  rcases le_or_lt b a with h | h
  · rw [if_neg (not_lt.mpr h), max_eq_left h]
  · rw [if_pos h, max_eq_right h.le]

theorem colorizeChannel_length (chan : Channel) (pts : List CloudPoint) (mc : Color)
    (mn mx df : ℚ) (idx : Int) :
    (colorizeChannel chan pts mc mn mx df idx).length = pts.length := by
  unfold colorizeChannel
  cases chanTypeOf chan.name with
  | none => rfl
  | some t =>
    cases hs : selectionMatches idx chan.name <;> simp [hs]

theorem colorizePass_length (chans : List Channel) :
    ∀ (oks : List Bool) (pts : List CloudPoint) (mc : Color) (mn mx df : ℚ) (idx : Int),
      (colorizePass chans oks pts mc mn mx df idx).length = pts.length := by
  induction chans with
  | nil => intro oks pts mc mn mx df idx; cases oks <;> rfl
  | cons chan rest ih =>
    intro oks pts mc mn mx df idx
    cases oks with
    | nil => rfl
    | cons ok restOks =>
      cases ok <;> simp [colorizePass, ih, colorizeChannel_length]

theorem transformPoints_length (a : Bool) (i : Int) (mn mx : ℚ) (bc : Bool)
    (mc Mc : Color) (cloud0 : PointCloud) (tf : Option (Point3 → Point3)) :
    (transformPoints a i mn mx bc mc Mc cloud0 tf).length =
      (transformPrep a i mn mx bc cloud0 tf).point_count := by
  unfold transformPoints
  rw [colorizePass_length]
  simp

theorem scanChannel_ok (a : Bool) (i : Int) (pc : Nat) (st : ScanState) (chan : Channel) :
    (scanChannel a i pc st chan).2.2 = (chan.vals.length == pc) := by
  simp only [scanChannel]
  split_ifs <;> rfl

theorem scanChannel_len (a : Bool) (i : Int) (pc : Nat) (st : ScanState) (chan : Channel) :
    (scanChannel a i pc st chan).2.1.vals.length = chan.vals.length := by
  simp only [scanChannel]
  split_ifs <;> simp

theorem scanChannel_name (a : Bool) (i : Int) (pc : Nat) (st : ScanState) (chan : Channel) :
    (scanChannel a i pc st chan).2.1.name = chan.name := by
  simp only [scanChannel]
  split_ifs <;> rfl

theorem scanChannels_oks_eq (a : Bool) (i : Int) (pc : Nat) :
    ∀ (chans : List Channel) (st : ScanState),
      (scanChannels a i pc chans st).2.2 =
        ((scanChannels a i pc chans st).2.1).map fun c => (c.vals.length == pc) := by
  intro chans
  induction chans with
  | nil => intro st; rfl
  | cons chan rest ih =>
    intro st
    simp only [scanChannels, List.map_cons]
    rw [scanChannel_ok, ← scanChannel_len a i pc st chan, ih]

theorem colorizePass_selectValid (chans : List Channel) :
    ∀ (oks : List Bool) (pts : List CloudPoint) (mc : Color) (mn mx df : ℚ) (idx : Int),
      colorizePass chans oks pts mc mn mx df idx =
        (selectValid chans oks).foldl
          (fun ps c => colorizeChannel c ps mc mn mx df idx) pts := by
  induction chans with
  | nil => intro oks pts mc mn mx df idx; cases oks <;> rfl
  | cons chan rest ih =>
    intro oks pts mc mn mx df idx
    cases oks with
    | nil => rfl
    | cons ok restOks =>
      cases ok <;> simp [colorizePass, selectValid, ih]

/-- C5: `addMessage` never drops a cloud.  The buffer after `addMessage` is
the old buffer (emptied first exactly when the decay time is zero) extended
with exactly one new entry; on TF failure (`tf = none`) the entry's stored
points are the untransformed input points; the entry records the input's
point count; the per-channel validity flags mark exactly the channels whose
value count differs from the point count; and the colorize pass is the same
as a pass over only the valid channels, so invalid channels are skipped but
never cause a drop. -/
theorem addMessage_never_drops_cloud :
    ∀ (s : PCState) (cloud0 : PointCloud) (tf : Option (Point3 → Point3)),
      ((addMessage s cloud0 tf).clouds =
        (if s.point_decay_time = 0 then [] else s.clouds) ++
          [{ message := (transformPrep s.auto_compute_intensity_bounds s.channel_color_idx
              s.min_intensity s.max_intensity s.intensity_bounds_changed cloud0 tf).cloud,
             time := 0,
             num_points := (transformPrep s.auto_compute_intensity_bounds s.channel_color_idx
              s.min_intensity s.max_intensity s.intensity_bounds_changed cloud0 tf).point_count }]) ∧
      ((transformPrep s.auto_compute_intensity_bounds s.channel_color_idx
          s.min_intensity s.max_intensity s.intensity_bounds_changed cloud0 tf).cloud.pts =
        (match tf with
         | some f => cloud0.pts.map f
         | none => cloud0.pts)) ∧
      ((transformPrep s.auto_compute_intensity_bounds s.channel_color_idx
          s.min_intensity s.max_intensity s.intensity_bounds_changed cloud0 tf).point_count =
        cloud0.pts.length) ∧
      ((transformPrep s.auto_compute_intensity_bounds s.channel_color_idx
          s.min_intensity s.max_intensity s.intensity_bounds_changed cloud0 tf).oks =
        (transformPrep s.auto_compute_intensity_bounds s.channel_color_idx
          s.min_intensity s.max_intensity s.intensity_bounds_changed cloud0 tf).cloud.chan.map
          fun c => (c.vals.length ==
            (transformPrep s.auto_compute_intensity_bounds s.channel_color_idx
              s.min_intensity s.max_intensity s.intensity_bounds_changed cloud0 tf).point_count)) ∧
      (∀ (chans : List Channel) (oks : List Bool) (pts : List CloudPoint) (mc : Color)
          (mn mx df : ℚ) (idx : Int),
        colorizePass chans oks pts mc mn mx df idx =
          (selectValid chans oks).foldl
            (fun ps c => colorizeChannel c ps mc mn mx df idx) pts) := by
  intro s cloud0 tf
  refine ⟨?_, ?_, ?_, ?_, ?_⟩
  · simp [addMessage, processMessage, causeRender]
  · unfold transformPrep
    cases tf <;> rfl
  · unfold transformPrep
    cases tf <;> simp
  · unfold transformPrep
    simp [scanChannels_oks_eq]
  · intro chans oks pts mc mn mx df idx
    exact colorizePass_selectValid chans oks pts mc mn mx df idx

theorem evictLoop_eq (d : ℚ) :
    ∀ (l : List CloudInfo) (r : List CloudPoint),
      evictLoop d l r =
        (l.dropWhile (fun info => decide (d < info.time)),
         r.drop (((l.takeWhile (fun info => decide (d < info.time))).map
            (fun info => info.num_points)).sum),
         !(l.takeWhile (fun info => decide (d < info.time))).isEmpty) := by
  intro l
  induction l with
  | nil => intro r; simp [evictLoop]
  | cons info rest ih =>
    intro r
    by_cases h : d < info.time
    · simp [evictLoop, gt_iff_lt, h, List.dropWhile_cons, List.takeWhile_cons, ih,
        List.drop_drop, Nat.add_comm]
    · simp [evictLoop, gt_iff_lt, h, List.dropWhile_cons, List.takeWhile_cons]

theorem update_shape (s : PCState) (dt : ℚ) :
    (update s dt).clouds = (updateEv s dt).1 ∧
    (update s dt).renderer = (updateEv s dt).2.1 ∧
    (update s dt).point_decay_time = s.point_decay_time ∧
    (update s dt).msg_since_reset = s.msg_since_reset ∧
    (update s dt).new_cloud = false := by
  unfold update updateEv agedOf
  by_cases hb : s.intensity_bounds_changed <;>
    simp only [hb, ite_true, ite_false, setMinIntensity, setMaxIntensity, causeRender,
      notifyProp, setChannelColorIndex] <;>
  · rcases hev : (if s.point_decay_time > 0 then
        evictLoop s.point_decay_time
          (s.clouds.map fun info => { info with time := info.time + dt }) s.renderer
      else (s.clouds.map fun info => { info with time := info.time + dt }, s.renderer,
        false)) with ⟨evClouds, evRenderer, evFlag⟩
    cases evClouds <;> cases evFlag <;>
      simp_all [causeRender, notifyProp, setChannelColorIndex] <;>
      split <;> simp

/-- C3: `update(dt)` first ages every buffered entry by `dt`; then, exactly
when `decay_time > 0`, it drops the longest prefix of entries whose age
exceeds the decay time (strict FIFO: the surviving buffer is the matching
suffix — third conjunct), popping from the renderer's front exactly the sum
of the removed entries' recorded point counts; when `decay_time ≤ 0` neither
the buffer (beyond aging) nor the renderer changes. -/
theorem update_ages_then_evicts_fifo :
    ∀ (s : PCState) (dt : ℚ),
      ((update s dt).clouds =
        (if s.point_decay_time > 0 then
          (agedOf s dt).dropWhile (fun info => decide (s.point_decay_time < info.time))
         else agedOf s dt)) ∧
      ((update s dt).renderer =
        (if s.point_decay_time > 0 then
          s.renderer.drop
            ((((agedOf s dt).takeWhile
                (fun info => decide (s.point_decay_time < info.time))).map
              (fun info => info.num_points)).sum)
         else s.renderer)) ∧
      ((agedOf s dt).takeWhile (fun info => decide (s.point_decay_time < info.time)) ++
        (agedOf s dt).dropWhile (fun info => decide (s.point_decay_time < info.time)) =
          agedOf s dt) := by
  intro s dt
  have hs := update_shape s dt
  refine ⟨?_, ?_, List.takeWhile_append_dropWhile _ _⟩
  · rw [hs.1]
    unfold updateEv
    by_cases h : s.point_decay_time > 0 <;> simp [h, evictLoop_eq]
  · rw [hs.2.1]
    unfold updateEv
    by_cases h : s.point_decay_time > 0 <;> simp [h, evictLoop_eq]

theorem processMessage_renderInv (s : PCState) (c : PointCloud)
    (tf : Option (Point3 → Point3)) (h : renderInv s) :
    renderInv (processMessage s c tf) := by
  unfold renderInv at h ⊢
  simp only [processMessage, causeRender]
  by_cases hd : s.point_decay_time = 0 <;>
    simp [hd, transformPoints_length, h]

theorem evictLoop_renderInv (d : ℚ) :
    ∀ (l : List CloudInfo) (r : List CloudPoint),
      r.length = (l.map fun info => info.num_points).sum →
      ((evictLoop d l r).2.1).length =
        (((evictLoop d l r).1).map fun info => info.num_points).sum := by
  intro l
  induction l with
  | nil => intro r h; simpa [evictLoop] using h
  | cons info rest ih =>
    intro r h
    simp only [List.map_cons, List.sum_cons] at h
    by_cases hd : d < info.time
    · have h2 : (r.drop info.num_points).length = (rest.map fun info => info.num_points).sum := by
        rw [List.length_drop]
        omega
      simp only [evictLoop, gt_iff_lt, hd, ite_true]
      exact ih _ h2
    · simp only [evictLoop, gt_iff_lt, hd, ite_false]
      simp [h]

theorem update_renderInv (s : PCState) (dt : ℚ) (h : renderInv s) :
    renderInv (update s dt) := by
  have hagesum : ((agedOf s dt).map fun info => info.num_points).sum =
      (s.clouds.map fun info => info.num_points).sum := by
    simp [agedOf, List.map_map, Function.comp_def]
  unfold renderInv
  rw [(update_shape s dt).1, (update_shape s dt).2.1]
  unfold updateEv
  by_cases hd : s.point_decay_time > 0
  · simp only [hd, ite_true]
    apply evictLoop_renderInv
    rw [hagesum]
    exact h
  · simp only [hd, ite_false]
    rw [hagesum]
    exact h

theorem step_renderInv : ∀ (s : PCState) (op : Op), renderInv s → renderInv (step s op) := by
  intro s op h
  cases op with
  | addMessage c tf => exact processMessage_renderInv s c tf h
  | update dt => exact update_renderInv s dt h
  | reset => simp [step, reset, renderInv]
  | onDisable => simp [step, onDisable, renderInv]
  | fixedFrameChanged f => simp [step, fixedFrameChanged, reset, renderInv]
  | setStyle v => simpa [step, setStyle, causeRender, notifyProp, renderInv] using h
  | setBillboardSize v => simpa [step, setBillboardSize, causeRender, notifyProp, renderInv] using h
  | setAlpha v => simpa [step, setAlpha, causeRender, notifyProp, renderInv] using h
  | setMinColor v => simpa [step, setMinColor, causeRender, notifyProp, renderInv] using h
  | setMaxColor v => simpa [step, setMaxColor, causeRender, notifyProp, renderInv] using h
  | setDecayTime v => simpa [step, setDecayTime, causeRender, notifyProp, renderInv] using h
  | setAutoComputeIntensityBounds v =>
    simpa [step, setAutoComputeIntensityBounds, causeRender, notifyProp, renderInv] using h
  | setMinIntensity v => simpa [step, setMinIntensity, causeRender, notifyProp, renderInv] using h
  | setMaxIntensity v => simpa [step, setMaxIntensity, causeRender, notifyProp, renderInv] using h
  | setChannelColorIndex v => simpa [step, setChannelColorIndex, renderInv] using h

theorem run_renderInv_aux : ∀ (ops : List Op) (s : PCState),
    renderInv s → renderInv (ops.foldl step s) := by
  intro ops
  induction ops with
  | nil => intro s h; simpa using h
  | cons op rest ih => intro s h; exact ih _ (step_renderInv s op h)

/-- C2: at every state reachable from construction through any sequence of
public operations (`addMessage`, `update`, `reset`, `onDisable`,
`fixedFrameChanged` and every setter), the renderer's point total equals the
sum of the recorded `point_count` of the buffered entries: `addMessage`
appends exactly the new entry's points (clearing both renderer and buffer
first when the decay time is zero), `update` pops exactly the evicted
entries' counts, and the reset family clears both together. -/
theorem renderer_total_matches_buffer : ∀ (ops : List Op), renderInv (run ops) := by
  intro ops
  exact run_renderInv_aux ops initState (by simp [renderInv, initState])

theorem step_decayZero_inv (s : PCState) (op : Op)
    (hop : (match op with | Op.setDecayTime t => t == 0 | _ => true) = true)
    (h1 : s.point_decay_time = 0)
    (h2 : s.msg_since_reset = true → s.clouds.length = 1)
    (h3 : s.clouds.length ≤ 1) :
    (step s op).point_decay_time = 0 ∧
    ((step s op).msg_since_reset = true → (step s op).clouds.length = 1) ∧
    (step s op).clouds.length ≤ 1 := by
  cases op with
  | addMessage c tf =>
    refine ⟨?_, ?_, ?_⟩ <;> simp [step, addMessage, processMessage, causeRender, h1]
  | update dt =>
    have hs := update_shape s dt
    have hcl : (update s dt).clouds = agedOf s dt := by
      rw [hs.1]
      unfold updateEv
      rw [h1]
      simp
    simp only [step]
    refine ⟨?_, ?_, ?_⟩
    · rw [hs.2.2.1, h1]
    · rw [hs.2.2.2.1, hcl]
      intro hm
      simpa [agedOf] using h2 hm
    · rw [hcl]
      simpa [agedOf] using h3
  | reset => simp [step, reset, h1]
  | onDisable => simp [step, onDisable, h1]
  | fixedFrameChanged f => simp [step, fixedFrameChanged, reset, h1]
  | setDecayTime t =>
    have ht : t = 0 := by simpa using hop
    exact ⟨by simp [step, setDecayTime, causeRender, notifyProp, ht],
      by simpa [step, setDecayTime, causeRender, notifyProp] using h2,
      by simpa [step, setDecayTime, causeRender, notifyProp] using h3⟩
  | setStyle v =>
    exact ⟨by simp [step, setStyle, causeRender, notifyProp, h1],
      by simpa [step, setStyle, causeRender, notifyProp] using h2,
      by simpa [step, setStyle, causeRender, notifyProp] using h3⟩
  | setBillboardSize v =>
    exact ⟨by simp [step, setBillboardSize, causeRender, notifyProp, h1],
      by simpa [step, setBillboardSize, causeRender, notifyProp] using h2,
      by simpa [step, setBillboardSize, causeRender, notifyProp] using h3⟩
  | setAlpha v =>
    exact ⟨by simp [step, setAlpha, causeRender, notifyProp, h1],
      by simpa [step, setAlpha, causeRender, notifyProp] using h2,
      by simpa [step, setAlpha, causeRender, notifyProp] using h3⟩
  | setMinColor v =>
    exact ⟨by simp [step, setMinColor, causeRender, notifyProp, h1],
      by simpa [step, setMinColor, causeRender, notifyProp] using h2,
      by simpa [step, setMinColor, causeRender, notifyProp] using h3⟩
  | setMaxColor v =>
    exact ⟨by simp [step, setMaxColor, causeRender, notifyProp, h1],
      by simpa [step, setMaxColor, causeRender, notifyProp] using h2,
      by simpa [step, setMaxColor, causeRender, notifyProp] using h3⟩
  | setAutoComputeIntensityBounds v =>
    exact ⟨by simp [step, setAutoComputeIntensityBounds, causeRender, notifyProp, h1],
      by simpa [step, setAutoComputeIntensityBounds, causeRender, notifyProp] using h2,
      by simpa [step, setAutoComputeIntensityBounds, causeRender, notifyProp] using h3⟩
  | setMinIntensity v =>
    exact ⟨by simp [step, setMinIntensity, causeRender, notifyProp, h1],
      by simpa [step, setMinIntensity, causeRender, notifyProp] using h2,
      by simpa [step, setMinIntensity, causeRender, notifyProp] using h3⟩
  | setMaxIntensity v =>
    exact ⟨by simp [step, setMaxIntensity, causeRender, notifyProp, h1],
      by simpa [step, setMaxIntensity, causeRender, notifyProp] using h2,
      by simpa [step, setMaxIntensity, causeRender, notifyProp] using h3⟩
  | setChannelColorIndex v =>
    exact ⟨by simp [step, setChannelColorIndex, h1],
      by simpa [step, setChannelColorIndex] using h2,
      by simpa [step, setChannelColorIndex] using h3⟩

theorem run_decayZero_aux : ∀ (ops : List Op) (s : PCState),
    decayOpsZero ops = true →
    s.point_decay_time = 0 →
    (s.msg_since_reset = true → s.clouds.length = 1) →
    s.clouds.length ≤ 1 →
    (ops.foldl step s).point_decay_time = 0 ∧
    ((ops.foldl step s).msg_since_reset = true → (ops.foldl step s).clouds.length = 1) ∧
    (ops.foldl step s).clouds.length ≤ 1 := by
  intro ops
  induction ops with
  | nil => intro s _ h1 h2 h3; exact ⟨h1, h2, h3⟩
  | cons op rest ih =>
    intro s hall h1 h2 h3
    simp only [decayOpsZero, List.all_cons, Bool.and_eq_true] at hall
    have hstep := step_decayZero_inv s op hall.1 h1 h2 h3
    exact ih _ (by simpa [decayOpsZero] using hall.2) hstep.1 hstep.2.1 hstep.2.2

/-- C4 (amended): along any operation sequence that never sets a non-zero
decay time (the constructed state starts at decay time 0), the buffer never
holds more than one entry, and holds exactly one whenever a message has been
received since the last buffer-clearing operation — each `addMessage` under
`decay_time == 0` clears the buffer (and the renderer) before appending the
new entry.  (The unamended claim fails once `setDecayTime` may interleave:
see the counterexample.) -/
theorem decay_zero_keeps_single_entry :
    ∀ (ops : List Op), decayOpsZero ops = true →
      (run ops).point_decay_time = 0 ∧
      ((run ops).msg_since_reset = true → (run ops).clouds.length = 1) ∧
      (run ops).clouds.length ≤ 1 := by
  intro ops hall
  exact run_decayZero_aux ops initState hall rfl (by simp [initState]) (by simp [initState])

section ConcreteWitnessEvaluations

attribute [local semireducible] Rat.add Rat.mul Rat.sub Rat.inv Rat.ofScientific

/-- C4 witness: one `addMessage` from construction (decay time 0 throughout)
leaves exactly one buffered entry. -/
theorem decay_zero_keeps_single_entry_witness :
    (run [Op.addMessage c4cloudA none]).clouds.length = 1 :=
  (decay_zero_keeps_single_entry [Op.addMessage c4cloudA none] (by decide)).2.1 (by decide)

end ConcreteWitnessEvaluations

theorem optionOfChannel_ne_neg (name : String) (opt : String × Int)
    (h : optionOfChannel name = some opt) : (opt.2 == -1) = false := by
  unfold optionOfChannel at h
  split_ifs at h <;> (try cases h) <;> simp_all [Intensity, ColorRGBSpace, NormalSphere, Curvature]

theorem scanOptions_spec : ∀ (chans : List Channel) (idx : Int),
    scanOptions chans idx =
      (chans.filterMap (fun c => optionOfChannel c.name),
       if idx == -1 then
         ((chans.filterMap (fun c => optionOfChannel c.name)).map Prod.snd).headD idx
       else idx) := by
  intro chans
  induction chans with
  | nil =>
    intro idx
    simp only [scanOptions, List.filterMap_nil, List.map_nil, List.headD_nil]
    rw [ite_self]
  | cons c rest ih =>
    intro idx
    cases hoc : optionOfChannel c.name with
    | none =>
      simp only [scanOptions, hoc, List.filterMap_cons, ih]
    | some opt =>
      have hne := optionOfChannel_ne_neg c.name opt hoc
      by_cases hidx : (idx == -1) = true
      · simp [scanOptions, hoc, ih, List.filterMap_cons, hidx, hne]
      · simp only [Bool.not_eq_true] at hidx
        simp [scanOptions, hoc, ih, List.filterMap_cons, hidx]

/-- C8 (amended): when `update` runs with a pending new cloud and the
post-eviction buffer is non-empty, the Channel options are rebuilt from the
channels of the buffer's FRONT (oldest) entry by the source's registry
("Intensity" for intensity/intensities, "Color (RGB)" for `rgb` or `r` only,
"Normal Sphere" for `nx`, "Curvature" for curvature/curvatures), and a -1
selection defaults to the role of the first recognised channel in input
order.  (The unamended claim — newest entry, and `g`/`b` also mapping to
"Color (RGB)" — fails: see the counterexample.) -/
theorem update_rebuilds_options_from_front :
    ∀ (s : PCState) (dt : ℚ) (front : CloudInfo) (rest : List CloudInfo),
      s.new_cloud = true →
      (updateEv s dt).1 = front :: rest →
      (update s dt).channel_options =
        front.message.chan.filterMap (fun c => optionOfChannel c.name) ∧
      (update s dt).channel_color_idx =
        (if s.channel_color_idx == -1 then
          ((front.message.chan.filterMap (fun c => optionOfChannel c.name)).map
            Prod.snd).headD s.channel_color_idx
         else s.channel_color_idx) := by
  intro s dt front rest hnew hev
  unfold updateEv agedOf at hev
  unfold update
  by_cases hb : s.intensity_bounds_changed <;>
    simp only [hb, ite_true, ite_false, setMinIntensity, setMaxIntensity, causeRender,
      notifyProp, setChannelColorIndex] <;>
  · rcases hevt : (if s.point_decay_time > 0 then
        evictLoop s.point_decay_time
          (s.clouds.map fun info => { info with time := info.time + dt }) s.renderer
      else (s.clouds.map fun info => { info with time := info.time + dt }, s.renderer,
        false)) with ⟨evClouds, evRenderer, evFlag⟩
    rw [hevt] at hev
    simp only at hev
    subst hev
    simp only [gt_iff_lt] at hevt
    cases evFlag <;>
      simp [hevt, hnew, causeRender, notifyProp, setChannelColorIndex, scanOptions_spec]

section ConcreteWitnessEvaluationsB

attribute [local semireducible] Rat.add Rat.mul Rat.sub Rat.inv Rat.ofScientific

/-- C8 witness: a fresh buffer holding one cloud with an `intensity` channel
and the -1 selection yields the single "Intensity" option and defaults the
selection to Intensity. -/
theorem update_rebuilds_options_witness :
    (update w8state 0).channel_options = [("Intensity", Intensity)] ∧
    (update w8state 0).channel_color_idx = Intensity := by
  have h := update_rebuilds_options_from_front w8state 0
      ((updateEv w8state 0).1.headD cloudInfoDefault) ((updateEv w8state 0).1.tail)
      (by decide) (by decide)
  exact ⟨by rw [h.1]; decide, by rw [h.2]; decide⟩

end ConcreteWitnessEvaluationsB

theorem transformIntensity_spec_eq (val : ℚ) (p : CloudPoint) (mc : Color) (mn mx : ℚ) :
    transformIntensity val p mc mn mx (mx - mn) = specIntensityColor val p mc mn mx := by
  unfold transformIntensity specIntensityColor
  by_cases h : mx - mn > 0
  · simp [h, fmin_eq_min, fmax_eq_max]
  · simp only [h, ite_false]
    norm_num [fmin_eq_min, fmax_eq_max]

theorem transformIntensity_nonpos_diff (val : ℚ) (p : CloudPoint) (mc : Color)
    (mn mx df : ℚ) (h : df ≤ 0) : transformIntensity val p mc mn mx df = p := by
  unfold transformIntensity
  rw [if_neg (by simpa using not_lt.mpr h)]
  norm_num [fmin_eq_min, fmax_eq_max]

theorem mapIdx_id_of {α : Type} (f : Nat → α → α) (l : List α)
    (h : ∀ i a, f i a = a) : l.mapIdx f = l := by
  apply List.ext_getElem
  · simp
  · intro i h1 h2
    simp [h]

theorem selectionMatches_intensity (name : String)
    (h : selectionMatches Intensity name = true) : isIntensityName name = true := by
  simp only [selectionMatches, isIntensityName, Intensity, Curvature, ColorRGBSpace] at h ⊢
  simpa using h

theorem colorizeChannel_preserves (chan : Channel) (pts : List CloudPoint) (mc : Color)
    (mn mx df : ℚ) (C : Color)
    (hdf : df ≤ 0 ∨ isIntensityName chan.name = false)
    (h : ∀ p ∈ pts, colourIs C p) :
    ∀ p ∈ colorizeChannel chan pts mc mn mx df Intensity, colourIs C p := by
  unfold colorizeChannel
  cases hct : chanTypeOf chan.name with
  | none => exact h
  | some t =>
    cases hsel : selectionMatches Intensity chan.name
    · simpa using h
    · have hname := selectionMatches_intensity chan.name hsel
      have hdf0 : df ≤ 0 := by
        rcases hdf with hdf | hdf
        · exact hdf
        · rw [hname] at hdf
          cases hdf
      have ht : t = ChannelType.CT_INTENSITY := by
        simp only [isIntensityName, Bool.or_eq_true, beq_iff_eq] at hname
        have hcalc : chanTypeOf chan.name = some ChannelType.CT_INTENSITY := by
          rcases hname with hname | hname <;> rw [hname] <;> decide
        exact Option.some_inj.mp (hct.symm.trans hcalc)
      subst ht
      have hid : pts.mapIdx (fun i point =>
          applyFunc ChannelType.CT_INTENSITY (chan.vals.getD i 0) point mc mn mx df) = pts := by
        apply mapIdx_id_of
        intro i a
        exact transformIntensity_nonpos_diff _ a mc mn mx df hdf0
      intro p hp
      dsimp only at hp
      rw [hid] at hp
      exact h p hp

theorem colorizeFold_preserves (mc : Color) (mn mx df : ℚ) (C : Color) :
    ∀ (cs : List Channel) (pts : List CloudPoint),
      (df ≤ 0 ∨ ∀ c ∈ cs, isIntensityName c.name = false) →
      (∀ p ∈ pts, colourIs C p) →
      ∀ p ∈ cs.foldl (fun ps c => colorizeChannel c ps mc mn mx df Intensity) pts,
        colourIs C p := by
  intro cs
  induction cs with
  | nil => intro pts _ h; simpa using h
  | cons c rest ih =>
    intro pts hdf h
    rw [List.foldl_cons]
    apply ih
    · rcases hdf with hdf | hdf
      · exact Or.inl hdf
      · exact Or.inr fun x hx => hdf x (List.mem_cons_of_mem _ hx)
    · apply colorizeChannel_preserves
      · rcases hdf with hdf | hdf
        · exact Or.inl hdf
        · exact Or.inr (hdf c (List.mem_cons_self _ _))
      · exact h

theorem foldl_fmin_const (w : ℚ) :
    ∀ (l : List ℚ) (a : ℚ), (∀ x ∈ l, x = w) →
      l.foldl fmin a = (if l.isEmpty then a else min a w) := by
  intro l
  induction l with
  | nil => intro a _; rfl
  | cons v rest ih =>
    intro a h
    have hv : v = w := h v (List.mem_cons_self _ _)
    rw [List.foldl_cons, ih (fmin a v) (fun x hx => h x (List.mem_cons_of_mem _ hx))]
    cases hrest : rest.isEmpty <;>
      simp [fmin_eq_min, hv, min_assoc]

theorem foldl_fmax_const (w : ℚ) :
    ∀ (l : List ℚ) (a : ℚ), (∀ x ∈ l, x = w) →
      l.foldl fmax a = (if l.isEmpty then a else max a w) := by
  intro l
  induction l with
  | nil => intro a _; rfl
  | cons v rest ih =>
    intro a h
    have hv : v = w := h v (List.mem_cons_self _ _)
    rw [List.foldl_cons, ih (fmax a v) (fun x hx => h x (List.mem_cons_of_mem _ hx))]
    cases hrest : rest.isEmpty <;>
      simp [fmax_eq_max, hv, max_assoc]

theorem capIntensity_lb (v : ℚ) (h : -999999 ≤ v) : -999999 ≤ capIntensity v := by
  unfold capIntensity
  rw [fmin_eq_min]
  exact le_min h (by norm_num)

theorem capIntensity_ub (v : ℚ) : capIntensity v ≤ 999999 := by
  unfold capIntensity
  rw [fmin_eq_min]
  exact le_trans (min_le_right _ _) (by norm_num)

theorem autoscale_bounds_collapse (vals : List ℚ)
    (hconst : ∀ x ∈ vals, ∀ y ∈ vals, x = y) (hlb : ∀ x ∈ vals, -999999 ≤ x) :
    (vals.map capIntensity).foldl fmax (-999999) ≤
      (vals.map capIntensity).foldl fmin 999999 := by
  cases vals with
  | nil => norm_num
  | cons v rest =>
    have hmem : v ∈ v :: rest := List.mem_cons_self _ _
    have hall : ∀ x ∈ (v :: rest).map capIntensity, x = capIntensity v := by
      intro x hx
      rcases List.mem_map.mp hx with ⟨y, hy, rfl⟩
      rw [hconst y hy v hmem]
    rw [foldl_fmin_const (capIntensity v) _ _ hall,
      foldl_fmax_const (capIntensity v) _ _ hall]
    have h1 : -999999 ≤ capIntensity v := capIntensity_lb v (hlb v hmem)
    have h2 : capIntensity v ≤ 999999 := capIntensity_ub v
    simp only [List.map_cons, List.isEmpty_cons, ite_false, Bool.false_eq_true]
    rw [max_eq_right h1, min_eq_right h2]

theorem scanChannel_intensity_fire (pc : Nat) (st : ScanState) (c : Channel)
    (hname : isIntensityName c.name = true) (hok : (c.vals.length == pc) = true) :
    scanChannel true Intensity pc st c =
      ({ min_intensity := (c.vals.map capIntensity).foldl fmin 999999,
         max_intensity := (c.vals.map capIntensity).foldl fmax (-999999),
         bounds_changed := true, use_normals := st.use_normals },
       { c with vals := c.vals.map capIntensity }, true) := by
  simp only [isIntensityName] at hname
  simp [scanChannel, hname, hok]

theorem scanChannel_intensity_skip (pc : Nat) (st : ScanState) (c : Channel)
    (h : ¬(isIntensityName c.name = true ∧ (c.vals.length == pc) = true)) :
    (scanChannel true Intensity pc st c).1.min_intensity = st.min_intensity ∧
    (scanChannel true Intensity pc st c).1.max_intensity = st.max_intensity ∧
    (scanChannel true Intensity pc st c).2.1 = c := by
  simp only [scanChannel]
  split_ifs with h1 h2 h3
  · exfalso
    apply h
    simp only [Bool.and_eq_true] at h1
    exact ⟨by simpa [isIntensityName] using h1.1.2, h1.1.1.2⟩
  · exfalso
    simp only [Bool.and_eq_true, Intensity, Curvature] at h2
    have := h2.2
    simp at this
  · exact ⟨rfl, rfl, rfl⟩
  · exact ⟨rfl, rfl, rfl⟩

theorem scanChannels_intensity_collapse (pc : Nat) :
    ∀ (chans : List Channel) (st : ScanState),
      (∀ c ∈ chans, isIntensityName c.name = true → c.vals.length = pc →
        ((∀ x ∈ c.vals, ∀ y ∈ c.vals, x = y) ∧ ∀ x ∈ c.vals, -999999 ≤ x)) →
      (((scanChannels true Intensity pc chans st).1.min_intensity = st.min_intensity ∧
        (scanChannels true Intensity pc chans st).1.max_intensity = st.max_intensity ∧
        ∀ c ∈ selectValid (scanChannels true Intensity pc chans st).2.1
            (scanChannels true Intensity pc chans st).2.2,
          isIntensityName c.name = false) ∨
       (scanChannels true Intensity pc chans st).1.max_intensity ≤
         (scanChannels true Intensity pc chans st).1.min_intensity) := by
  intro chans
  induction chans with
  | nil =>
    intro st _
    exact Or.inl ⟨rfl, rfl, by intro c hc; simp [scanChannels, selectValid] at hc⟩
  | cons c rest ih =>
    intro st hh
    have hh2 : ∀ x ∈ rest, isIntensityName x.name = true → x.vals.length = pc →
        ((∀ a ∈ x.vals, ∀ b ∈ x.vals, a = b) ∧ ∀ a ∈ x.vals, -999999 ≤ a) :=
      fun x hx => hh x (List.mem_cons_of_mem _ hx)
    simp only [scanChannels]
    by_cases hfire : isIntensityName c.name = true ∧ (c.vals.length == pc) = true
    · have hsc := scanChannel_intensity_fire pc st c hfire.1 hfire.2
      rw [hsc]
      obtain ⟨hconst, hlb⟩ := hh c (List.mem_cons_self _ _) hfire.1 (by simpa using hfire.2)
      have ihx := ih ⟨(c.vals.map capIntensity).foldl fmin 999999,
        (c.vals.map capIntensity).foldl fmax (-999999), true, st.use_normals⟩ hh2
      rcases ihx with ⟨hmin, hmax, _⟩ | hle
      · right
        dsimp only
        rw [hmin, hmax]
        exact autoscale_bounds_collapse c.vals hconst hlb
      · right
        exact hle
    · have hsk := scanChannel_intensity_skip pc st c hfire
      rcases ih (scanChannel true Intensity pc st c).1 hh2 with ⟨hmin, hmax, hsel⟩ | hle
      · refine Or.inl ⟨hmin.trans hsk.1, hmax.trans hsk.2.1, ?_⟩
        intro x hx
        rw [hsk.2.2, scanChannel_ok] at hx
        cases hok : (c.vals.length == pc) with
        | false =>
          rw [hok] at hx
          simp only [selectValid, Bool.false_eq_true, ite_false] at hx
          exact hsel x hx
        | true =>
          rw [hok] at hx
          simp only [selectValid, ite_true] at hx
          rcases List.mem_cons.mp hx with rfl | hx2
          · cases hn : isIntensityName x.name
            · rfl
            · exact absurd ⟨hn, hok⟩ hfire
          · exact hsel x hx2
      · exact Or.inr hle

theorem transformPoints_constant_intensity (mn mx : ℚ) (bc : Bool) (mc Mc : Color)
    (cloud0 : PointCloud) (tf : Option (Point3 → Point3))
    (hch : ∀ c ∈ cloud0.chan, isIntensityName c.name = true →
      c.vals.length = cloud0.pts.length →
      ((∀ x ∈ c.vals, ∀ y ∈ c.vals, x = y) ∧ ∀ x ∈ c.vals, -999999 ≤ x)) :
    ∀ p ∈ transformPoints true Intensity mn mx bc mc Mc cloud0 tf, colourIs Mc p := by
  intro p hp
  unfold transformPoints transformPrep at hp
  cases tf with
  | none =>
    simp only at hp
    rw [colorizePass_selectValid] at hp
    refine colorizeFold_preserves mc _ _ _ Mc _ _ ?_ ?_ p hp
    · rcases scanChannels_intensity_collapse cloud0.pts.length cloud0.chan
          ⟨mn, mx, bc, false⟩ hch with ⟨_, _, hsel⟩ | hle
      · exact Or.inr hsel
      · exact Or.inl (sub_nonpos.mpr hle)
    · intro q hq
      rcases List.mem_map.mp hq with ⟨i, _, rfl⟩
      exact ⟨rfl, rfl, rfl⟩
  | some f =>
    simp only at hp
    rw [colorizePass_selectValid] at hp
    have hch2 : ∀ c ∈ cloud0.chan, isIntensityName c.name = true →
        c.vals.length = (cloud0.pts.map f).length →
        ((∀ x ∈ c.vals, ∀ y ∈ c.vals, x = y) ∧ ∀ x ∈ c.vals, -999999 ≤ x) := by
      intro c hc hn hl
      exact hch c hc hn (by simpa using hl)
    refine colorizeFold_preserves mc _ _ _ Mc _ _ ?_ ?_ p hp
    · rcases scanChannels_intensity_collapse (cloud0.pts.map f).length cloud0.chan
          ⟨mn, mx, bc, false⟩ hch2 with ⟨_, _, hsel⟩ | hle
      · exact Or.inr hsel
      · exact Or.inl (sub_nonpos.mpr hle)
    · intro q hq
      rcases List.mem_map.mp hq with ⟨i, _, rfl⟩
      exact ⟨rfl, rfl, rfl⟩

/-- C6: (i) the source intensity/curvature colorizer computes exactly the
specification's formula — `t = clamp((v − min_intensity)/diff, 0, 1)` when
`diff > 0` and `t = 1` otherwise, each colour component becoming
`point * t + min_color * (1 − t)` — and (ii, amended) under auto intensity
bounds with Intensity selected, a cloud whose well-formed intensity channels
are constant with values ≥ −999999 (the autoscaler's seed) renders every
point in `max_color` (the point holds `max_color` at entry and `diff ≤ 0`
makes the blend the identity).  Without the auto-bounds hypothesis the
constant-channel law is false: see the counterexample. -/
theorem intensity_colorizer_formula_and_constant_law :
    (∀ (val : ℚ) (p : CloudPoint) (mc : Color) (mn mx : ℚ),
      transformIntensity val p mc mn mx (mx - mn) = specIntensityColor val p mc mn mx) ∧
    (∀ (mn mx : ℚ) (bc : Bool) (mc Mc : Color) (cloud0 : PointCloud)
        (tf : Option (Point3 → Point3)),
      (∀ c ∈ cloud0.chan, isIntensityName c.name = true →
        c.vals.length = cloud0.pts.length →
        ((∀ x ∈ c.vals, ∀ y ∈ c.vals, x = y) ∧ ∀ x ∈ c.vals, -999999 ≤ x)) →
      ∀ p ∈ transformPoints true Intensity mn mx bc mc Mc cloud0 tf,
        p.r = Mc.r ∧ p.g = Mc.g ∧ p.b = Mc.b) := by
  constructor
  · exact transformIntensity_spec_eq
  · intro mn mx bc mc Mc cloud0 tf hch p hp
    exact transformPoints_constant_intensity mn mx bc mc Mc cloud0 tf hch p hp

section ConcreteWitnessEvaluationsC

attribute [local semireducible] Rat.add Rat.mul Rat.sub Rat.inv Rat.ofScientific

/-- C6 witness: the formula instance at `val = 5`, bounds (3, 3), and the
constant-channel law at `w6cloud` (one point, intensity constant 7, auto
bounds on, Intensity selected): the produced point keeps
`max_color = (1,1,1)`. -/
theorem intensity_colorizer_constant_law_witness :
    (transformIntensity 5 { x := 0, y := 0, z := 0, r := 1, g := 1, b := 1 }
        { r := 0, g := 0, b := 0 } 3 3 (3 - 3) =
      specIntensityColor 5 { x := 0, y := 0, z := 0, r := 1, g := 1, b := 1 }
        { r := 0, g := 0, b := 0 } 3 3) ∧
    (w6point.r = 1 ∧ w6point.g = 1 ∧ w6point.b = 1) := by
  constructor
  · exact intensity_colorizer_formula_and_constant_law.1 5
      { x := 0, y := 0, z := 0, r := 1, g := 1, b := 1 } { r := 0, g := 0, b := 0 } 3 3
  · exact intensity_colorizer_formula_and_constant_law.2 0 4096 false
      { r := 0, g := 0, b := 0 } { r := 1, g := 1, b := 1 } w6cloud none (by decide)
      w6point (by decide)

end ConcreteWitnessEvaluationsC

end rviz
